import Mathlib

/-!
Verification of the Wealth-Navigator repository: the financial computation
engine (`finance_logic.py`, duplicated verbatim in `app.py` lines 105-147
and 249-268) and the rule-based chat reply dispatchers (`app.py` lines
585-736 — the one reachable from the UI — and `chat_assistant.py`, which
`app.py` never imports).

Numbers are embedded as exact rationals (`ℚ`), Python strings as `String`,
Python dicts as association lists, and the replies built by the dispatchers
as inductive values carrying the branch taken and every number interpolated
into the reply template (string formatting itself is dropped).
-/

namespace WealthNavigator

/-! ## String helpers

Python's `needle in haystack` substring test and `str.lower`. -/

/-- Check whether the first character list is an initial segment of the second. -/
def startsWithChars : List Char → List Char → Bool
  | [], _ => true
  | _ :: _, [] => false
  | a :: as, b :: bs => a == b && startsWithChars as bs

/-- Check whether `needle` occurs as a contiguous sublist of the haystack. -/
def hasSubChars (needle : List Char) : List Char → Bool
  | [] => startsWithChars needle []
  | c :: rest => startsWithChars needle (c :: rest) || hasSubChars needle rest

/-- Python's `needle in haystack` for strings. -/
def containsSub (haystack needle : String) : Bool :=
  hasSubChars needle.toList haystack.toList

/-- Python's `str.lower()` (character-wise lower-casing). -/
def lower (s : String) : String :=
  String.mk (s.data.map Char.toLower)

namespace FinanceLogic

/-- `RECOMMENDED_PCT` from `finance_logic.py` lines 5-12; `app.py` lines
261-268 define an identical local dict `recommended_pct`. -/
def RECOMMENDED_PCT : List (String × ℚ) :=
  [("Rent / Housing", 0.30),
   ("Food & Groceries", 0.15),
   ("Transport", 0.10),
   ("Utilities & Bills", 0.10),
   ("Entertainment & Eating Out", 0.10),
   ("Shopping & Other", 0.10)]

/-- Python `RECOMMENDED_PCT.get(cat, 0.10)`. -/
def recommendedPctGet (cat : String) : ℚ :=
  (RECOMMENDED_PCT.lookup cat).getD 0.10

/-- `calculate_german_income_tax` from `finance_logic.py` lines 15-47
(duplicated verbatim in `app.py` lines 105-131). -/
def calculate_german_income_tax (monthly_income : ℚ) : ℚ :=
  let annual_income := monthly_income * 12
  let tax_year :=
    if annual_income ≤ 11604 then (0 : ℚ)
    else if annual_income ≤ 66760 then (annual_income - 11604) * 0.20
    else if annual_income ≤ 277825 then (55156 * 0.20) + (annual_income - 66760) * 0.42
    else (55156 * 0.20) + (211065 * 0.42) + (annual_income - 277825) * 0.45
  tax_year / 12

/-- The modifier dict from `apply_tax_class_modifier`
(`finance_logic.py` lines 55-62, `app.py` lines 139-146). -/
def modifiers : List (String × ℚ) :=
  [("I", 1.00), ("II", 0.90), ("III", 0.80), ("IV", 1.00), ("V", 1.20), ("VI", 1.30)]

/-- `apply_tax_class_modifier` from `finance_logic.py` lines 50-65
(duplicated verbatim in `app.py` lines 134-147); `modifiers.get(tax_class, 1.00)`. -/
def apply_tax_class_modifier (base_tax : ℚ) (tax_class : String) : ℚ :=
  base_tax * ((modifiers.lookup tax_class).getD 1.00)

/-- The dict returned by `compute_financials` (`finance_logic.py` lines 100-115). -/
structure Snapshot where
  gross_income : ℚ
  selected_tax_class : String
  base_tax : ℚ
  estimated_tax_selected : ℚ
  net_income : ℚ
  expenses : List (String × ℚ)
  total_expenses : ℚ
  savings : ℚ
  savings_rate : ℚ
  goal_amount : ℚ
  goal_months : ℤ
  required_monthly_savings : ℚ
  tax_per_class : List (String × ℚ)
  deriving DecidableEq

/-- `compute_financials` from `finance_logic.py` lines 68-115. -/
def compute_financials (gross_income : ℚ) (selected_tax_class : String)
    (expenses : List (String × ℚ)) (goal_amount : ℚ) (goal_months : ℤ) : Snapshot :=
  let base_tax := calculate_german_income_tax gross_income
  let estimated_tax_selected := apply_tax_class_modifier base_tax selected_tax_class
  let net_income := gross_income - estimated_tax_selected
  let total_expenses := (expenses.map Prod.snd).sum
  let savings := net_income - total_expenses
  let savings_rate := if 0 < net_income then savings / net_income * 100 else 0
  let required_monthly_savings :=
    if 0 < goal_amount ∧ 0 < goal_months then goal_amount / (goal_months : ℚ) else 0
  let tax_per_class :=
    (["I", "II", "III", "IV", "V", "VI"] : List String).map
      (fun cls => (cls, apply_tax_class_modifier base_tax cls))
  { gross_income := gross_income
    selected_tax_class := selected_tax_class
    base_tax := base_tax
    estimated_tax_selected := estimated_tax_selected
    net_income := net_income
    expenses := expenses
    total_expenses := total_expenses
    savings := savings
    savings_rate := savings_rate
    goal_amount := goal_amount
    goal_months := goal_months
    required_monthly_savings := required_monthly_savings
    tax_per_class := tax_per_class }

/-- Unfolding lemma exposing the band structure of the tax estimate. -/
lemma calculate_german_income_tax_eq (m : ℚ) :
    calculate_german_income_tax m =
      (if m * 12 ≤ 11604 then (0 : ℚ)
       else if m * 12 ≤ 66760 then (m * 12 - 11604) * 0.20
       else if m * 12 ≤ 277825 then (55156 * 0.20) + (m * 12 - 66760) * 0.42
       else (55156 * 0.20) + (211065 * 0.42) + (m * 12 - 277825) * 0.45) / 12 := rfl

example : calculate_german_income_tax 3000 = 406.6 := by
  rw [calculate_german_income_tax_eq]; norm_num

example : calculate_german_income_tax 967 = 0 := by
  rw [calculate_german_income_tax_eq]; norm_num

example : apply_tax_class_modifier 100 "V" = 120 := by
  simp [apply_tax_class_modifier, modifiers, List.lookup]; norm_num

example : (compute_financials 3000 "I" [("Rent / Housing", 0)] 0 12).net_income = 2593.4 := by
  simp [compute_financials, apply_tax_class_modifier, modifiers, List.lookup,
    calculate_german_income_tax]
  norm_num

end FinanceLogic

/-! ## The chat dispatcher of `app.py` (lines 585-736)

This is the only dispatcher reachable from the UI: `app.py` never imports
`chat_assistant.py`.  Replies are modelled as inductive values recording the
branch taken and the numbers interpolated into the reply template. -/

namespace App

open FinanceLogic

/-- The six reply categories of the keyword dispatcher (spec section 4.2). -/
inductive Category where
  | goalFeasibility
  | savingsTarget
  | budgetSummary
  | overspending
  | taxExplanation
  | fallback
  deriving DecidableEq

/-- The keyword tests of `generate_bot_reply` in `app.py`
(lines 603, 605, 642, 657, 679-684, 711), in source order. -/
def classify (msg : String) : Category :=
  let text := lower msg
  if containsSub text "reach" || (containsSub text "goal" && containsSub text "save") then
    Category.goalFeasibility
  else if containsSub text "how much" && containsSub text "save" then
    Category.savingsTarget
  else if containsSub text "budget" || containsSub text "overview" || containsSub text "summary" then
    Category.budgetSummary
  else if containsSub text "overspend" || containsSub text "improve" || containsSub text "reduce"
      || containsSub text "cut" then
    Category.overspending
  else if containsSub text "tax" || containsSub text "steuer" || containsSub text "steuerklasse" then
    Category.taxExplanation
  else
    Category.fallback

/-- Modelled from the claim's words (claim C1): the classifier with the tiers
exactly as the claim enumerates them — in particular with bare "class" as a
trigger of the tax tier, and without "cut" in the overspending tier. -/
def classify_claimed (msg : String) : Category :=
  let text := lower msg
  if containsSub text "reach" || (containsSub text "goal" && containsSub text "save") then
    Category.goalFeasibility
  else if containsSub text "how much" && containsSub text "save" then
    Category.savingsTarget
  else if containsSub text "budget" || containsSub text "summary" || containsSub text "overview" then
    Category.budgetSummary
  else if containsSub text "overspend" || containsSub text "reduce" || containsSub text "improve" then
    Category.overspending
  else if containsSub text "tax" || containsSub text "steuer" || containsSub text "class" then
    Category.taxExplanation
  else
    Category.fallback

/-- The claim's classifier description amended to match the code: the
overspending tier also contains "cut", and the tax tier keys on
"tax"/"steuer"/"steuerklasse" — bare "class" is not a trigger. -/
def classify_amended (msg : String) : Category :=
  let text := lower msg
  if containsSub text "reach" || (containsSub text "goal" && containsSub text "save") then
    Category.goalFeasibility
  else if containsSub text "how much" && containsSub text "save" then
    Category.savingsTarget
  else if containsSub text "budget" || containsSub text "summary" || containsSub text "overview" then
    Category.budgetSummary
  else if containsSub text "overspend" || containsSub text "reduce" || containsSub text "improve"
      || containsSub text "cut" then
    Category.overspending
  else if containsSub text "tax" || containsSub text "steuer" || containsSub text "steuerklasse" then
    Category.taxExplanation
  else
    Category.fallback

/-- The `ctx` dict assembled in `app.py` lines 586-601. -/
structure AppCtx where
  gross_income : ℚ
  net_income : ℚ
  base_tax : ℚ
  selected_tax_class : String
  estimated_tax_selected : ℚ
  total_expenses : ℚ
  savings : ℚ
  savings_rate : ℚ
  goal_amount : ℚ
  goal_months : ℤ
  required_savings : ℚ
  currency : String
  expenses : List (String × ℚ)
  deriving DecidableEq

/-- The module-level computations of `app.py` (lines 249-259) packed into the
`ctx` dict of lines 586-601. -/
def make_ctx (gross_income : ℚ) (selected_tax_class : String)
    (expenses : List (String × ℚ)) (goal_amount : ℚ) (goal_months : ℤ)
    (currency : String) : AppCtx :=
  let base_tax := calculate_german_income_tax gross_income
  let estimated_tax_selected := apply_tax_class_modifier base_tax selected_tax_class
  let net_income := gross_income - estimated_tax_selected
  let total_expenses := (expenses.map Prod.snd).sum
  let savings := net_income - total_expenses
  let savings_rate := if 0 < net_income then savings / net_income * 100 else 0
  let required_monthly_savings :=
    if 0 < goal_amount then (if 0 < goal_months then goal_amount / (goal_months : ℚ) else 0) else 0
  { gross_income := gross_income
    net_income := net_income
    base_tax := base_tax
    selected_tax_class := selected_tax_class
    estimated_tax_selected := estimated_tax_selected
    total_expenses := total_expenses
    savings := savings
    savings_rate := savings_rate
    goal_amount := goal_amount
    goal_months := goal_months
    required_savings := required_monthly_savings
    currency := currency
    expenses := expenses }

/-- Abstract form of the goal-feasibility reply of `app.py` lines 605-640:
the branch taken plus every number the reply template reports. -/
inductive GoalReply where
  | setGoalPrompt
  | fixCashflow (goal_amount : ℚ) (goal_months : ℤ) (required : ℚ)
  | achievable (goal_amount : ℚ) (goal_months : ℤ) (required : ℚ)
  | shortfall (goal_amount : ℚ) (goal_months : ℤ) (required savings gap : ℚ)
  deriving DecidableEq

/-- The goal-feasibility branch of `generate_bot_reply` in `app.py`
(lines 605-640). -/
def goal_reply (ctx : AppCtx) : GoalReply :=
  if ctx.goal_amount ≤ 0 then
    GoalReply.setGoalPrompt
  else if ctx.savings ≤ 0 then
    GoalReply.fixCashflow ctx.goal_amount ctx.goal_months ctx.required_savings
  else if ctx.required_savings ≤ ctx.savings then
    GoalReply.achievable ctx.goal_amount ctx.goal_months ctx.required_savings
  else
    GoalReply.shortfall ctx.goal_amount ctx.goal_months ctx.required_savings ctx.savings
      (ctx.required_savings - ctx.savings)

/-- The overspending loop shared by `app.py` lines 688-696 and
`chat_assistant.py` lines 67-74: the categories the reply lists, in order.
Both loops read the same guideline table (`RECOMMENDED_PCT`, which `app.py`
duplicates as `recommended_pct`). -/
def overspend_tip_cats (net_income : ℚ) : List (String × ℚ) → List String
  | [] => []
  | (cat, amount) :: rest =>
    let actual_pct := if 0 < net_income then amount / net_income else 0
    let rec_pct := recommendedPctGet cat
    if rec_pct + 0.05 < actual_pct then cat :: overspend_tip_cats net_income rest
    else overspend_tip_cats net_income rest

/-- Abstract form of the overspending reply of `app.py` lines 679-709. -/
inductive OverspendReply where
  | needPositiveNet
  | reassure
  | tips (cats : List String)
  deriving DecidableEq

/-- The overspending branch of `generate_bot_reply` in `app.py`
(lines 679-709). -/
def overspend_reply (ctx : AppCtx) : OverspendReply :=
  if ctx.net_income ≤ 0 then
    OverspendReply.needPositiveNet
  else
    let tips := overspend_tip_cats ctx.net_income ctx.expenses
    if tips = [] then OverspendReply.reassure else OverspendReply.tips tips

end App

/-! ## `chat_assistant.py`

The alternative dispatcher: rule-based fallback plus the optional external
(OpenAI) responder.  The network call is modelled as an opaque function from
the call payload to `Except String String` (`Except.error` is the caught
Python exception, carrying its message). -/

namespace ChatAssistant

open FinanceLogic

/-- One conversation turn (a `{"role": ..., "content": ...}` dict). -/
structure ChatMsg where
  role : String
  content : String
  deriving DecidableEq

/-- Abstract form of the replies of `chat_assistant.py`: one constructor per
template of `generate_rule_based_reply` (lines 25-102), plus the two outcomes
of `generate_openai_reply` (lines 189-198). -/
inductive CAReply where
  | goalPrompt
  | goalShort (goal_amount : ℚ) (goal_months : ℤ) (required savings diff : ℚ)
  | goalEnough (goal_amount : ℚ) (goal_months : ℤ) (required : ℚ)
  | summary (gross_income net_income : ℚ) (selected_tax_class : String)
      (tax_selected total_expenses savings savings_rate : ℚ)
  | overspendTips (cats : List String)
  | overspendNone
  | taxBreakdown (gross_income base_tax : ℚ) (selected_tax_class : String)
      (tax_selected net_income : ℚ)
  | fallbackHelp
  | external (content : String)
  | externalError (e : String)
  deriving DecidableEq

/-- `generate_rule_based_reply` from `chat_assistant.py` lines 25-102.
Its `ctx` dict is the snapshot produced by `compute_financials`; the
`ctx.get("currency", "€")` lookup only affects string formatting, which the
abstract replies drop. -/
def generate_rule_based_reply (user_message : String) (ctx : Snapshot) : CAReply :=
  let text := lower user_message
  if containsSub text "goal" || (containsSub text "save" && containsSub text "month") then
    if ctx.goal_amount ≤ 0 then CAReply.goalPrompt
    else
      let monthly_required := ctx.required_monthly_savings
      if ctx.savings < monthly_required then
        CAReply.goalShort ctx.goal_amount ctx.goal_months monthly_required ctx.savings
          (monthly_required - ctx.savings)
      else CAReply.goalEnough ctx.goal_amount ctx.goal_months monthly_required
  else if containsSub text "summary" || containsSub text "budget" || containsSub text "overview" then
    CAReply.summary ctx.gross_income ctx.net_income ctx.selected_tax_class
      ctx.estimated_tax_selected ctx.total_expenses ctx.savings ctx.savings_rate
  else if containsSub text "reduce" || containsSub text "overspend" || containsSub text "improve" then
    let tips := App.overspend_tip_cats ctx.net_income ctx.expenses
    if tips = [] then CAReply.overspendNone else CAReply.overspendTips tips
  else if containsSub text "tax" || containsSub text "steuer" || containsSub text "class" then
    CAReply.taxBreakdown ctx.gross_income (calculate_german_income_tax ctx.gross_income)
      ctx.selected_tax_class ctx.estimated_tax_selected ctx.net_income
  else
    CAReply.fallbackHelp

/-- The keyword list deciding `wants_detail` (`chat_assistant.py` lines 119-131). -/
def detail_keywords : List String :=
  ["show the calculation", "show calculation", "calculate step by step", "step by step",
   "explain in detail", "why is that", "how did you get this", "formula"]

/-- The payload `generate_openai_reply` hands to the external responder:
the user message, the financial snapshot serialized for the model, the
detail-mode flag, and the trailing window `history[-5:]` of the conversation
(lines 144-187 of `chat_assistant.py`). -/
structure ResponderCall where
  user_message : String
  ctx : Snapshot
  wants_detail : Bool
  history_sent : List ChatMsg
  deriving DecidableEq

/-- Construction of the responder payload in `generate_openai_reply`
(`chat_assistant.py` lines 115-187): `history[-5:]` is the drop of all but
the last five turns. -/
def buildResponderCall (user_message : String) (ctx : Snapshot)
    (history : List ChatMsg) : ResponderCall :=
  { user_message := user_message
    ctx := ctx
    wants_detail := detail_keywords.any (fun kw => containsSub (lower user_message) kw)
    history_sent := history.drop (history.length - 5) }

/-- `generate_openai_reply` from `chat_assistant.py` lines 108-198: one call
to the external responder; `Except.ok` is returned as the reply content,
`Except.error e` is the caught exception, converted to the fixed error reply
(the source string is "OpenAI error: " followed by the exception text). -/
def generate_openai_reply (responder : ResponderCall → Except String String)
    (user_message : String) (ctx : Snapshot) (history : List ChatMsg) : CAReply :=
  match responder (buildResponderCall user_message ctx history) with
  | Except.ok content => CAReply.external content
  | Except.error e => CAReply.externalError e

/-- `OPENAI_API_KEY` as committed in `chat_assistant.py` line 16. -/
def OPENAI_API_KEY : String := ""

/-- `OPENAI_ENABLED = len(OPENAI_API_KEY) > 0` (`chat_assistant.py` line 18),
parameterized by the pasted key. -/
def OPENAI_ENABLED (api_key : String) : Bool := api_key.length > 0

/-- `generate_bot_reply` from `chat_assistant.py` lines 204-211 (the `client`
object exists exactly when `OPENAI_ENABLED`, so the source's conjunction
collapses to the flag test). -/
def generate_bot_reply (api_key : String) (responder : ResponderCall → Except String String)
    (user_message : String) (ctx : Snapshot) (history : List ChatMsg) : CAReply :=
  if OPENAI_ENABLED api_key then generate_openai_reply responder user_message ctx history
  else generate_rule_based_reply user_message ctx

end ChatAssistant

/-! ## Claim theorems -/

open FinanceLogic App ChatAssistant

/-- C1, counterexample: the claim's keyword tiers route the message "class"
(which contains none of the other keywords) to the tax-explanation category
via its "tax/steuer/class" tier, but the dispatcher of `app.py` tests
"tax"/"steuer"/"steuerklasse" and routes "class" to the fallback category, so
the classifier does not follow the priority order exactly as the claim states
it. -/
theorem C1_counterexample :
    classify "class" = Category.fallback ∧
    classify_claimed "class" = Category.taxExplanation ∧
    classify "class" ≠ classify_claimed "class" := by
  refine ⟨by decide, by decide, by decide⟩

/-- C1 (amended): the rule-based classifier of `app.py` lower-cases the
message and tests the claim's tiers in the claim's order, except that the
overspending tier also contains the keyword "cut" and the tax tier keys on
"tax"/"steuer"/"steuerklasse" rather than bare "class"; it returns exactly one
category, and any message containing "goal", "save" and "month" routes to the
goal-feasibility category. -/
theorem C1_classifier_priority (msg : String) :
    classify msg = classify_amended msg ∧
    (containsSub (lower msg) "goal" = true → containsSub (lower msg) "save" = true →
      containsSub (lower msg) "month" = true → classify msg = Category.goalFeasibility) := by
  constructor
  · simp only [classify, classify_amended]
    generalize containsSub (lower msg) "reach" = x1
    generalize containsSub (lower msg) "goal" = x2
    generalize containsSub (lower msg) "save" = x3
    generalize containsSub (lower msg) "how much" = x4
    generalize containsSub (lower msg) "budget" = x5
    generalize containsSub (lower msg) "overview" = x6
    generalize containsSub (lower msg) "summary" = x7
    generalize containsSub (lower msg) "overspend" = x8
    generalize containsSub (lower msg) "improve" = x9
    generalize containsSub (lower msg) "reduce" = x10
    generalize containsSub (lower msg) "cut" = x11
    generalize containsSub (lower msg) "tax" = x12
    generalize containsSub (lower msg) "steuer" = x13
    generalize containsSub (lower msg) "steuerklasse" = x14
    revert x1 x2 x3 x4 x5 x6 x7 x8 x9 x10 x11 x12 x13 x14
    decide
  · intro h1 h2 _
    simp [classify, h1, h2]

/-- C1, witness: the concrete message "goal save month" contains all three
keywords and is routed to the goal-feasibility category. -/
theorem C1_witness :
    containsSub (lower "goal save month") "goal" = true ∧
    containsSub (lower "goal save month") "save" = true ∧
    containsSub (lower "goal save month") "month" = true ∧
    classify "goal save month" = Category.goalFeasibility :=
  ⟨by decide, by decide, by decide,
    (C1_classifier_priority "goal save month").2 (by decide) (by decide) (by decide)⟩

/-- C2: the goal-feasibility reply of `app.py` takes exactly one of four
branches, tested in order — goal amount ≤ 0 prompts to set a goal; otherwise
savings ≤ 0 yields the fix-cashflow message; otherwise savings ≥ required
yields the achievable message; otherwise the reply reports the shortfall
required − savings; and a snapshot with goal 6000 over 12 months, required
500 and current savings 300 reports shortfall 200. -/
theorem C2_goal_feasibility_branches (ctx : AppCtx) :
    (ctx.goal_amount ≤ 0 → goal_reply ctx = GoalReply.setGoalPrompt) ∧
    (0 < ctx.goal_amount → ctx.savings ≤ 0 →
      goal_reply ctx = GoalReply.fixCashflow ctx.goal_amount ctx.goal_months ctx.required_savings) ∧
    (0 < ctx.goal_amount → 0 < ctx.savings → ctx.required_savings ≤ ctx.savings →
      goal_reply ctx = GoalReply.achievable ctx.goal_amount ctx.goal_months ctx.required_savings) ∧
    (0 < ctx.goal_amount → 0 < ctx.savings → ctx.savings < ctx.required_savings →
      goal_reply ctx = GoalReply.shortfall ctx.goal_amount ctx.goal_months ctx.required_savings
        ctx.savings (ctx.required_savings - ctx.savings)) ∧
    (ctx.goal_amount = 6000 → ctx.goal_months = 12 → ctx.required_savings = 500 →
      ctx.savings = 300 → goal_reply ctx = GoalReply.shortfall 6000 12 500 300 200) := by
  refine ⟨?_, ?_, ?_, ?_, ?_⟩
  · intro h
    simp only [goal_reply]
    rw [if_pos h]
  · intro h1 h2
    simp only [goal_reply]
    rw [if_neg (not_le.mpr h1), if_pos h2]
  · intro h1 h2 h3
    simp only [goal_reply]
    rw [if_neg (not_le.mpr h1), if_neg (not_le.mpr h2), if_pos h3]
  · intro h1 h2 h3
    simp only [goal_reply]
    rw [if_neg (not_le.mpr h1), if_neg (not_le.mpr h2), if_neg (not_le.mpr h3)]
  · intro h1 h2 h3 h4
    simp only [goal_reply]
    rw [if_neg (by rw [h1]; norm_num), if_neg (by rw [h4]; norm_num),
      if_neg (by rw [h3, h4]; norm_num)]
    rw [h1, h2, h3, h4]
    norm_num

/-- C2, witness: the concrete snapshot of the claim — gross 3000, class I,
rent 2293.4 (so savings are exactly 300), goal 6000 over 12 months — yields
the shortfall reply with required 500 and gap 200. -/
theorem C2_witness :
    (make_ctx 3000 "I" [("Rent / Housing", 2293.4)] 6000 12 "€").goal_amount = 6000 ∧
    (make_ctx 3000 "I" [("Rent / Housing", 2293.4)] 6000 12 "€").savings = 300 ∧
    goal_reply (make_ctx 3000 "I" [("Rent / Housing", 2293.4)] 6000 12 "€") =
      GoalReply.shortfall 6000 12 500 300 200 := by
  refine ⟨rfl, ?_, ?_⟩
  · simp [make_ctx, apply_tax_class_modifier, modifiers, List.lookup, calculate_german_income_tax]
    norm_num
  · exact (C2_goal_feasibility_branches _).2.2.2.2 rfl rfl
      (by simp [make_ctx]; norm_num)
      (by simp [make_ctx, apply_tax_class_modifier, modifiers, List.lookup,
            calculate_german_income_tax]; norm_num)

/-- With positive net income, the overspending loop keeps exactly the
categories whose expense fraction of net income exceeds the guideline
fraction plus 0.05, in input order. -/
lemma overspend_tip_cats_pos (net : ℚ) (hnet : 0 < net) (l : List (String × ℚ)) :
    overspend_tip_cats net l =
      (l.filter (fun p => decide (recommendedPctGet p.1 + 0.05 < p.2 / net))).map Prod.fst := by
  induction l with
  | nil => rfl
  | cons p rest ih =>
    obtain ⟨cat, amount⟩ := p
    simp only [overspend_tip_cats, if_pos hnet, List.filter]
    by_cases h : recommendedPctGet cat + 0.05 < amount / net
    · rw [if_pos h]
      simp [h, ih]
    · rw [if_neg h]
      simp [h, ih]

/-- C3: the overspending reply of `app.py` returns the data-insufficiency
message whenever net income ≤ 0; with positive net income it lists exactly
those expense categories whose amount divided by net income exceeds the
category's guideline fraction plus 0.05, and returns the reassuring message
when no category exceeds that threshold. -/
theorem C3_overspending_reply (ctx : AppCtx) :
    (ctx.net_income ≤ 0 → overspend_reply ctx = OverspendReply.needPositiveNet) ∧
    (0 < ctx.net_income →
      overspend_reply ctx =
        (if (ctx.expenses.filter
              (fun p => decide (recommendedPctGet p.1 + 0.05 < p.2 / ctx.net_income))).map
              Prod.fst = [] then
          OverspendReply.reassure
        else
          OverspendReply.tips
            ((ctx.expenses.filter
              (fun p => decide (recommendedPctGet p.1 + 0.05 < p.2 / ctx.net_income))).map
              Prod.fst))) := by
  constructor
  · intro h
    simp only [overspend_reply]
    rw [if_pos h]
  · intro h
    simp only [overspend_reply]
    rw [if_neg (not_le.mpr h), overspend_tip_cats_pos ctx.net_income h ctx.expenses]

/-- C3, witness: with net income 1000 and a single rent expense of 500
(50% of net against a 30% guideline plus 5 points), the reply lists exactly
the rent category. -/
theorem C3_witness :
    (0 : ℚ) < 1000 ∧
    overspend_reply
        { gross_income := 1200, net_income := 1000, base_tax := 200,
          selected_tax_class := "I", estimated_tax_selected := 200,
          total_expenses := 500, savings := 500, savings_rate := 50,
          goal_amount := 0, goal_months := 12, required_savings := 0,
          currency := "€", expenses := [("Rent / Housing", 500)] } =
      OverspendReply.tips ["Rent / Housing"] := by
  refine ⟨by norm_num, ?_⟩
  have h := (C3_overspending_reply
    { gross_income := 1200, net_income := 1000, base_tax := 200,
      selected_tax_class := "I", estimated_tax_selected := 200,
      total_expenses := 500, savings := 500, savings_rate := 50,
      goal_amount := 0, goal_months := 12, required_savings := 0,
      currency := "€", expenses := [("Rent / Housing", 500)] }).2 (by norm_num)
  rw [h]
  norm_num [List.filter, recommendedPctGet, RECOMMENDED_PCT, List.lookup]

/-- The six expense categories of the sidebar (`app.py` lines 227-234),
all entered as 0. -/
def zero_expenses : List (String × ℚ) :=
  [("Rent / Housing", 0), ("Food & Groceries", 0), ("Transport", 0),
   ("Utilities & Bills", 0), ("Entertainment & Eating Out", 0), ("Shopping & Other", 0)]

/-- C4: for every monthly income, the tax estimate is the annual four-band
schedule on 12·m divided by 12; in particular monthly income 3000 (annual
36000, band 2) yields monthly tax 406.6, and through the engine with class I
and zero expenses yields net income 2593.4 and savings rate 100. -/
theorem C4_tax_bands (m : ℚ) (_hm : 0 ≤ m) :
    (m * 12 ≤ 11604 → calculate_german_income_tax m = 0) ∧
    (11604 < m * 12 → m * 12 ≤ 66760 →
      calculate_german_income_tax m = (m * 12 - 11604) * 0.20 / 12) ∧
    (66760 < m * 12 → m * 12 ≤ 277825 →
      calculate_german_income_tax m = ((55156 * 0.20) + (m * 12 - 66760) * 0.42) / 12) ∧
    (277825 < m * 12 →
      calculate_german_income_tax m =
        ((55156 * 0.20) + (211065 * 0.42) + (m * 12 - 277825) * 0.45) / 12) ∧
    calculate_german_income_tax 3000 = 406.6 ∧
    (compute_financials 3000 "I" zero_expenses 0 12).net_income = 2593.4 ∧
    (compute_financials 3000 "I" zero_expenses 0 12).savings_rate = 100 := by
  refine ⟨?_, ?_, ?_, ?_, ?_, ?_, ?_⟩
  · intro h
    rw [calculate_german_income_tax_eq, if_pos h]
    norm_num
  · intro h1 h2
    rw [calculate_german_income_tax_eq, if_neg (not_le.mpr h1), if_pos h2]
  · intro h1 h2
    rw [calculate_german_income_tax_eq, if_neg (by linarith), if_neg (not_le.mpr h1), if_pos h2]
  · intro h1
    rw [calculate_german_income_tax_eq, if_neg (by linarith), if_neg (by linarith),
      if_neg (not_le.mpr h1)]
  · rw [calculate_german_income_tax_eq]; norm_num
  · simp [compute_financials, zero_expenses, apply_tax_class_modifier, modifiers, List.lookup,
      calculate_german_income_tax]
    norm_num
  · simp [compute_financials, zero_expenses, apply_tax_class_modifier, modifiers, List.lookup,
      calculate_german_income_tax]
    norm_num

/-- C4, witness: at monthly income 3000 the hypotheses of band 2 hold and the
band-2 formula gives 406.6. -/
theorem C4_witness :
    (0 : ℚ) ≤ 3000 ∧ (11604 : ℚ) < 3000 * 12 ∧ (3000 : ℚ) * 12 ≤ 66760 ∧
    calculate_german_income_tax 3000 = (3000 * 12 - 11604) * 0.20 / 12 :=
  ⟨by norm_num, by norm_num, by norm_num,
    (C4_tax_bands 3000 (by norm_num)).2.1 (by norm_num) (by norm_num)⟩

/-- The tax estimate is monotone in the income. -/
lemma calculate_german_income_tax_mono (a b : ℚ) (hab : a ≤ b) :
    calculate_german_income_tax a ≤ calculate_german_income_tax b := by
  rw [calculate_german_income_tax_eq, calculate_german_income_tax_eq]
  have h12 : a * 12 ≤ b * 12 := by linarith
  split_ifs <;> linarith

/-- C5: the tax estimate is non-decreasing on non-negative incomes, is 0 at
income 0, and is continuous at each band boundary — at annual income exactly
11604 (monthly 967) the tax is 0, and the adjacent band formulas agree
exactly at annual 66760 and at annual 277825. -/
theorem C5_monotone_continuous :
    (∀ a b : ℚ, 0 ≤ a → a ≤ b →
      calculate_german_income_tax a ≤ calculate_german_income_tax b) ∧
    calculate_german_income_tax 0 = 0 ∧
    calculate_german_income_tax 967 = 0 ∧
    ((66760 - 11604 : ℚ) * 0.20 = (55156 * 0.20) + ((66760 : ℚ) - 66760) * 0.42) ∧
    ((55156 * 0.20) + ((277825 : ℚ) - 66760) * 0.42 =
      (55156 * 0.20) + (211065 * 0.42) + ((277825 : ℚ) - 277825) * 0.45) :=
  ⟨fun a b _ hab => calculate_german_income_tax_mono a b hab,
   by rw [calculate_german_income_tax_eq]; norm_num,
   by rw [calculate_german_income_tax_eq]; norm_num,
   by norm_num, by norm_num⟩

/-- C5, witness: monotonicity applied at the concrete pair 1000 ≤ 2000. -/
theorem C5_witness :
    (0 : ℚ) ≤ 1000 ∧ (1000 : ℚ) ≤ 2000 ∧
    calculate_german_income_tax 1000 ≤ calculate_german_income_tax 2000 :=
  ⟨by norm_num, by norm_num, C5_monotone_continuous.1 1000 2000 (by norm_num) (by norm_num)⟩

/-- C6: the class modifier multiplies the base tax by the fixed per-class
factor — I→1.00, II→0.90, III→0.80, IV→1.00, V→1.20, VI→1.30 — and any
string that is not one of the six classes silently falls back to factor
1.00. -/
theorem C6_class_modifier (t : ℚ) (cls : String) :
    apply_tax_class_modifier t "I" = t * 1.00 ∧
    apply_tax_class_modifier t "II" = t * 0.90 ∧
    apply_tax_class_modifier t "III" = t * 0.80 ∧
    apply_tax_class_modifier t "IV" = t * 1.00 ∧
    apply_tax_class_modifier t "V" = t * 1.20 ∧
    apply_tax_class_modifier t "VI" = t * 1.30 ∧
    (cls ∉ (["I", "II", "III", "IV", "V", "VI"] : List String) →
      apply_tax_class_modifier t cls = t * 1.00) := by
  refine ⟨rfl, rfl, rfl, rfl, rfl, rfl, ?_⟩
  intro h
  simp only [List.mem_cons, List.not_mem_nil, or_false, not_or] at h
  obtain ⟨h1, h2, h3, h4, h5, h6⟩ := h
  simp only [apply_tax_class_modifier, modifiers, List.lookup,
    beq_eq_false_iff_ne.mpr h1, beq_eq_false_iff_ne.mpr h2, beq_eq_false_iff_ne.mpr h3,
    beq_eq_false_iff_ne.mpr h4, beq_eq_false_iff_ne.mpr h5, beq_eq_false_iff_ne.mpr h6]
  rfl

/-- C6, witness: the unknown class string "VII" gets factor 1.00. -/
theorem C6_witness :
    ("VII" : String) ∉ (["I", "II", "III", "IV", "V", "VI"] : List String) ∧
    apply_tax_class_modifier 100 "VII" = 100 * 1.00 :=
  ⟨by decide, (C6_class_modifier 100 "VII").2.2.2.2.2.2 (by decide)⟩

/-- C7: both divisions of the engine are guarded — the snapshot's savings
rate is savings / net income × 100 exactly when net income is positive and is
0 whenever net income ≤ 0, and the required monthly savings is goal amount /
goal months exactly when both are positive and 0 otherwise, in particular 0
whenever the goal amount is ≤ 0 regardless of the months value. -/
theorem C7_division_guards (g : ℚ) (cls : String) (exps : List (String × ℚ))
    (ga : ℚ) (gm : ℤ) :
    (0 < (compute_financials g cls exps ga gm).net_income →
      (compute_financials g cls exps ga gm).savings_rate =
        (compute_financials g cls exps ga gm).savings /
          (compute_financials g cls exps ga gm).net_income * 100) ∧
    ((compute_financials g cls exps ga gm).net_income ≤ 0 →
      (compute_financials g cls exps ga gm).savings_rate = 0) ∧
    (0 < ga → 0 < gm →
      (compute_financials g cls exps ga gm).required_monthly_savings = ga / (gm : ℚ)) ∧
    (¬(0 < ga ∧ 0 < gm) →
      (compute_financials g cls exps ga gm).required_monthly_savings = 0) ∧
    (ga ≤ 0 → (compute_financials g cls exps ga gm).required_monthly_savings = 0) := by
  refine ⟨?_, ?_, ?_, ?_, ?_⟩
  · intro h
    simp only [compute_financials] at h ⊢
    rw [if_pos h]
  · intro h
    simp only [compute_financials] at h ⊢
    rw [if_neg (not_lt.mpr h)]
  · intro h1 h2
    simp only [compute_financials]
    rw [if_pos ⟨h1, h2⟩]
  · intro h
    simp only [compute_financials]
    rw [if_neg h]
  · intro h
    simp only [compute_financials]
    rw [if_neg (fun hc => absurd hc.1 (not_lt.mpr h))]

/-- C7, witness: goal 6000 over 12 months gives required monthly savings
6000 / 12, and goal 0 gives required 0 even with 0 months. -/
theorem C7_witness :
    (0 : ℚ) < 6000 ∧ (0 : ℤ) < 12 ∧
    (compute_financials 3000 "I" [] 6000 12).required_monthly_savings = 6000 / (12 : ℚ) ∧
    ((0 : ℚ) ≤ 0 ∧
      (compute_financials 3000 "I" [] 0 0).required_monthly_savings = 0) :=
  ⟨by norm_num, by norm_num,
    (C7_division_guards 3000 "I" [] 6000 12).2.2.1 (by norm_num) (by norm_num),
    le_refl 0,
    (C7_division_guards 3000 "I" [] 0 0).2.2.2.2 (le_refl 0)⟩

/-- C8: the snapshot's tax-per-class mapping has exactly the six classes
I-VI as keys, in order, independently of the selected class, and each entry
is the single base tax (computed once from the gross income) multiplied by
that class's fixed factor. -/
theorem C8_tax_per_class (g : ℚ) (cls cls2 : String) (exps : List (String × ℚ))
    (ga : ℚ) (gm : ℤ) :
    ((compute_financials g cls exps ga gm).tax_per_class.map Prod.fst =
      ["I", "II", "III", "IV", "V", "VI"]) ∧
    ((compute_financials g cls exps ga gm).base_tax = calculate_german_income_tax g) ∧
    ((compute_financials g cls exps ga gm).tax_per_class =
      [("I", calculate_german_income_tax g * 1.00),
       ("II", calculate_german_income_tax g * 0.90),
       ("III", calculate_german_income_tax g * 0.80),
       ("IV", calculate_german_income_tax g * 1.00),
       ("V", calculate_german_income_tax g * 1.20),
       ("VI", calculate_german_income_tax g * 1.30)]) ∧
    ((compute_financials g cls exps ga gm).tax_per_class =
      (compute_financials g cls2 exps ga gm).tax_per_class) :=
  ⟨rfl, rfl, rfl, rfl⟩

/-- The rule-based reply never produces the external-error reply: falling
back to rules after an external failure is impossible to confuse with the
error reply. -/
lemma rule_based_ne_externalError (m : String) (c : Snapshot) (e : String) :
    ChatAssistant.generate_rule_based_reply m c ≠ CAReply.externalError e := by
  simp only [ChatAssistant.generate_rule_based_reply]
  split_ifs <;> simp

/-- C9: with a credential configured, the dispatcher delegates to the
external responder, handing it the user message, the snapshot and at most the
last five history turns (a suffix of the history); any failure of that call
becomes the error reply carrying the failure's message — it is not an
exception and is never one of the rule-based replies — while success returns
the responder's text; with no credential, the dispatcher is exactly the
rule-based path. -/
theorem C9_external_dispatch (api_key : String)
    (responder : ResponderCall → Except String String) (msg : String)
    (ctx : Snapshot) (history : List ChatMsg) :
    (ChatAssistant.OPENAI_ENABLED api_key = true →
      (buildResponderCall msg ctx history).user_message = msg ∧
      (buildResponderCall msg ctx history).ctx = ctx ∧
      (buildResponderCall msg ctx history).history_sent.length ≤ 5 ∧
      (buildResponderCall msg ctx history).history_sent <:+ history ∧
      (∀ e, responder (buildResponderCall msg ctx history) = Except.error e →
        ChatAssistant.generate_bot_reply api_key responder msg ctx history =
          CAReply.externalError e ∧
        ∀ m2 c2, ChatAssistant.generate_bot_reply api_key responder msg ctx history ≠
          ChatAssistant.generate_rule_based_reply m2 c2) ∧
      (∀ s, responder (buildResponderCall msg ctx history) = Except.ok s →
        ChatAssistant.generate_bot_reply api_key responder msg ctx history =
          CAReply.external s)) ∧
    (ChatAssistant.OPENAI_ENABLED api_key = false →
      ChatAssistant.generate_bot_reply api_key responder msg ctx history =
        ChatAssistant.generate_rule_based_reply msg ctx) := by
  constructor
  · intro hk
    refine ⟨rfl, rfl, ?_, ?_, ?_, ?_⟩
    · simp only [buildResponderCall, List.length_drop]
      omega
    · exact ⟨history.take (history.length - 5), List.take_append_drop _ _⟩
    · intro e he
      have hrep : ChatAssistant.generate_bot_reply api_key responder msg ctx history =
          CAReply.externalError e := by
        simp [ChatAssistant.generate_bot_reply, hk, ChatAssistant.generate_openai_reply, he]
      refine ⟨hrep, fun m2 c2 hcontra => ?_⟩
      rw [hrep] at hcontra
      exact rule_based_ne_externalError m2 c2 e hcontra.symm
    · intro s hs
      simp [ChatAssistant.generate_bot_reply, hk, ChatAssistant.generate_openai_reply, hs]
  · intro hk
    simp [ChatAssistant.generate_bot_reply, hk]

/-- C9, witness: with key "k" configured and a responder that always fails
with "boom", the dispatcher on a six-turn history sends five turns and
returns the error reply; the applied conjuncts are evaluated on that concrete
input. -/
theorem C9_witness :
    ChatAssistant.OPENAI_ENABLED "k" = true ∧
    ChatAssistant.generate_bot_reply "k" (fun _ => Except.error "boom") "hello"
        (compute_financials 3000 "I" [] 0 12)
        [⟨"user", "a"⟩, ⟨"assistant", "b"⟩, ⟨"user", "c"⟩, ⟨"assistant", "d"⟩,
         ⟨"user", "e"⟩, ⟨"assistant", "f"⟩] =
      CAReply.externalError "boom" ∧
    (buildResponderCall "hello" (compute_financials 3000 "I" [] 0 12)
        [⟨"user", "a"⟩, ⟨"assistant", "b"⟩, ⟨"user", "c"⟩, ⟨"assistant", "d"⟩,
         ⟨"user", "e"⟩, ⟨"assistant", "f"⟩]).history_sent.length ≤ 5 :=
  ⟨rfl,
    (((C9_external_dispatch "k" (fun _ => Except.error "boom") "hello"
        (compute_financials 3000 "I" [] 0 12)
        [⟨"user", "a"⟩, ⟨"assistant", "b"⟩, ⟨"user", "c"⟩, ⟨"assistant", "d"⟩,
         ⟨"user", "e"⟩, ⟨"assistant", "f"⟩]).1 rfl).2.2.2.2.1 "boom" rfl).1,
    ((C9_external_dispatch "k" (fun _ => Except.error "boom") "hello"
        (compute_financials 3000 "I" [] 0 12)
        [⟨"user", "a"⟩, ⟨"assistant", "b"⟩, ⟨"user", "c"⟩, ⟨"assistant", "d"⟩,
         ⟨"user", "e"⟩, ⟨"assistant", "f"⟩]).1 rfl).2.2.1⟩

/-- C10: in rule-based mode (no credential) the dispatcher's reply depends
only on the message and the snapshot — any two histories, and even any two
responders, yield the same reply, because the rule-based path reads neither. -/
theorem C10_history_independence (api_key : String)
    (hk : ChatAssistant.OPENAI_ENABLED api_key = false)
    (r1 r2 : ResponderCall → Except String String) (msg : String) (ctx : Snapshot)
    (hist1 hist2 : List ChatMsg) :
    ChatAssistant.generate_bot_reply api_key r1 msg ctx hist1 =
      ChatAssistant.generate_bot_reply api_key r2 msg ctx hist2 := by
  simp [ChatAssistant.generate_bot_reply, hk]

/-- C10, witness: with the committed empty key, two different histories and
two different responders give the identical reply. -/
theorem C10_witness :
    ChatAssistant.OPENAI_ENABLED "" = false ∧
    ChatAssistant.generate_bot_reply "" (fun _ => Except.ok "x") "budget please"
        (compute_financials 3000 "I" [] 0 12) [⟨"user", "earlier"⟩] =
      ChatAssistant.generate_bot_reply "" (fun _ => Except.error "y") "budget please"
        (compute_financials 3000 "I" [] 0 12) [] :=
  ⟨rfl,
    C10_history_independence "" rfl (fun _ => Except.ok "x") (fun _ => Except.error "y")
      "budget please" (compute_financials 3000 "I" [] 0 12) [⟨"user", "earlier"⟩] []⟩

end WealthNavigator



